import Mathlib

/-!
Verification of the query-orchestration engine of the RAG-LangGraph SEO
assistant (TypeScript sources under `src/`).  The development shallowly
embeds the orchestration code: model and store calls become explicit
oracle parameters returning `Except` values (a rejected promise is an
`Except.error`), JavaScript strings become Lean `String`s, and the JSON
payloads built by the retrieval tools become values of an inductive
`Json` type (standing for their `JSON.stringify` image, which is
injective on these values).  Prompt text bodies are elided: a
schema-constrained model call is represented by the data that flows into
the prompt plus an oracle for the external `StructuredOutputParser`.
-/

namespace SEO

/-- Whether `pat` occurs contiguously in `l` (an executable infix check on
character lists). -/
def containsSub (pat : List Char) : List Char → Bool
  | [] => pat.isEmpty
  | c :: rest => pat.isPrefixOf (c :: rest) || containsSub pat rest

/-- JavaScript `String.prototype.includes`, embedded at the character-list
level (`pat` occurs contiguously in `s`; the empty pattern always occurs,
as in JS). Used by `guardrails.ts` and the header/intent normalizers. -/
def jsIncludes (s pat : String) : Bool :=
  containsSub pat.data s.data

/-- JavaScript `String.prototype.startsWith`, embedded at the
character-list level. -/
def jsStartsWith (s pat : String) : Bool :=
  pat.data.isPrefixOf s.data

/-- JavaScript `s.slice(0, n)` for a nonnegative literal `n`. -/
def jsSliceTake (s : String) (n : Nat) : String :=
  ⟨s.data.take n⟩

/-- ASCII whitespace (the white-space characters occurring in this
codebase's inputs; JS `trim` also strips further Unicode space
characters, which the sources never produce). -/
def isJsWhitespace (c : Char) : Bool :=
  c = ' ' || c = '\t' || c = '\n' || c = '\r'

/-- JavaScript `String.prototype.trim`, embedded at the character-list
level. -/
def jsTrim (s : String) : String :=
  ⟨((s.data.dropWhile isJsWhitespace).reverse.dropWhile isJsWhitespace).reverse⟩

/-- JavaScript `String.prototype.toLowerCase`, embedded at the
character-list level (ASCII case mapping). -/
def jsToLower (s : String) : String :=
  ⟨s.data.map Char.toLower⟩

/-- JavaScript `s.trim().toLowerCase()`, the normalization used by
`normalizeSearchIntent`. -/
def jsTrimLower (s : String) : String :=
  jsToLower (jsTrim s)

/-- JavaScript `n || d` on numbers: `0` (and `undefined`, handled by the
caller) falls back to the default. -/
def jsOrNat (n d : Nat) : Nat :=
  if n = 0 then d else n

/-!
## Output-safety guardrail (`src/src/app/guardrails.ts`)

`outputGuardrail` receives "various LangChain types"; the values that
actually reach it in this codebase are plain strings, `AIMessage`s with
string content, and other objects carrying a string `content` field.
`extractTextFromOutput` returns the string itself, the `content` field,
or `JSON.stringify(output)`; for the embedded output type the `content`
field is always present, so the `JSON.stringify` branch is dead.
-/

/-- A model output as seen by `outputGuardrail`. -/
inductive ModelOutput where
  /-- a plain string output -/
  | str (s : String)
  /-- an `AIMessage` whose `content` is a string -/
  | aiMessage (content : String)
  /-- any other object with a string `content` field -/
  | objWithContent (content : String)
  deriving DecidableEq, Repr

/-- The helper `extractTextFromOutput` of `guardrails.ts`. -/
def extractTextFromOutput : ModelOutput → String
  | .str s => s
  | .aiMessage c => c
  | .objWithContent c => c

/-- The fixed credential-marker list of `outputGuardrail`. -/
def sensitiveKeywords : List String :=
  ["SECRET_KEY", "API_KEY", "ACCESS_KEY", "ROLE_KEY", "ACCESS_TOKEN"]

/-- The check `sensitiveKeywords.some(keyword => textContent.includes(keyword))`. -/
def hasSensitive (text : String) : Bool :=
  sensitiveKeywords.any (fun k => jsIncludes text k)

/-- The function `outputGuardrail` of `guardrails.ts`: if the extracted text contains a
credential marker, the whole output is replaced by the redaction marker
(`AIMessage`s keep their shape with redacted content, any other value is
replaced by the redaction string); otherwise the output is returned
unchanged. -/
def outputGuardrail (output : ModelOutput) : ModelOutput :=
  let textContent := extractTextFromOutput output
  if hasSensitive textContent then
    match output with
    | .aiMessage _ => .aiMessage "[REDACTED]"
    | _ => .str "[REDACTED]"
  else output

/-- The guard `outputGuardrail` applied to a raw string (the shape used inside
`withStructuredOutputGuards`): the result is again a string. -/
def guardText (s : String) : String :=
  if hasSensitive s then "[REDACTED]" else s

/-!
## Errors

A single error universe for the embedded asynchronous calls.  A rejected
model/network promise is `modelError`, a thrown supabase/vector-store
error is `storeError`, an `OutputParserException` is `parseError`, and
the distinguished `GuardrailError` class of `guardrails.ts` is
`guardrailError`.
-/

/-- The errors that can be thrown by the embedded code. -/
inductive AppError where
  | modelError (msg : String)
  | storeError (msg : String)
  | parseError (msg : String)
  | guardrailError (msg : String)
  deriving DecidableEq, Repr

/-- The `message` carried by a thrown error (`error.message` in JS). -/
def AppError.message : AppError → String
  | .modelError m => m
  | .storeError m => m
  | .parseError m => m
  | .guardrailError m => m

/-!
## Search-intent resolution (`agenticTasks.ts`, also inlined in the
monolithic graph file)

The cheap model and the `StructuredOutputParser` are external services;
they are embedded as oracles.  A schema-constrained prompt is
represented by the data interpolated into it (the prompt text body is
elided), and each parser by a function from the raw model text to the
parsed value or a parse error.
-/

/-- One `{role, content}` entry of the caller-supplied conversation
history. -/
structure ConvMsg where
  role : String
  content : String
  deriving DecidableEq, Repr

/-- The four search-intent labels. -/
inductive SearchIntent where
  | informational
  | navigational
  | transactional
  | unknown
  deriving DecidableEq, Repr

/-- Confidence tiers of a resolved intent. -/
inductive Confidence where
  | low
  | medium
  | high
  deriving DecidableEq, Repr

/-- A resolved `{intent, confidence}` pair. -/
structure ResolvedIntent where
  intent : SearchIntent
  confidence : Confidence
  deriving DecidableEq, Repr

/-- One enumerated item handed to the relevance filter. -/
structure FilterItem where
  index : Nat
  domain : Option String := none
  position : Option Nat := none
  snippet : Option String := none
  deriving Repr

/-- The cheap-model prompts issued by the agentic helpers, identified by
the data interpolated into them. -/
inductive CheapCall where
  /-- the classification prompt of `detectSearchIntent` for a query -/
  | intentPrompt (query : String)
  /-- the prompt of `filterItemsByIntent` over the enumerated items -/
  | filterPrompt (query : String) (intent : SearchIntent) (items : List FilterItem)
  /-- the prompt of `extractClusterHint` for a query plus history -/
  | hintPrompt (query : String) (history : List ConvMsg)
  /-- the extraction prompt of `detectTimeRanges` with the observed data range
  (epoch days) -/
  | timePrompt (query : String) (earliestInDb latestInDb : Nat)

/-- Parsed output of `detectTimeRanges`' time-extraction schema; dates
are epoch days (see `detectTimeRanges`). -/
structure TimeExtraction where
  hasTimeReference : Bool
  earlierPeriod : Option (Nat × Nat)
  laterPeriod : Option (Nat × Nat)

/-- Oracles for the external cheap model and the
`StructuredOutputParser`s of the agentic helpers.  `invokeCheap`
models `cheapModel.invoke` (an `Except.error` is a rejected promise);
the `parse…` fields model the schema parsers applied to the raw model
text. -/
structure IntentEnv where
  invokeCheap : CheapCall → Except AppError String
  parseIntent : String → Except String (SearchIntent × Confidence)
  parseKeep : String → Except String (List Int)
  parseHint : String → Except String (Option String)
  parseTime : String → Except String TimeExtraction

/-- The function `normalizeSearchIntent` of `agenticTasks.ts` (identical in the
monolithic graph file): keyword-prefix mapping of a caller-provided
intent string.  `none` models a JS `undefined` argument; the empty
string is also falsy for the initial `!intent` check. -/
def normalizeSearchIntent (intent : Option String) : Option SearchIntent :=
  match intent with
  | none => none
  | some i =>
    if i = "" then none
    else
      let normalized := jsTrimLower i
      if jsStartsWith normalized "info" then some .informational
      else if jsStartsWith normalized "nav" then some .navigational
      else if jsStartsWith normalized "trans" then some .transactional
      else if jsStartsWith normalized "comm" || jsIncludes normalized "investig" then
        some .transactional
      else if jsStartsWith normalized "local" then some .transactional
      else if jsStartsWith normalized "unknown" then some .unknown
      else none

/-- The function `detectSearchIntent`: one schema-constrained cheap-model call; any
failure (rejection or parse error) degrades to `{unknown, low}`. -/
def detectSearchIntent (env : IntentEnv) (query : String) : ResolvedIntent :=
  match env.invokeCheap (.intentPrompt query) with
  | .error _ => ⟨.unknown, .low⟩
  | .ok content =>
    match env.parseIntent content with
    | .error _ => ⟨.unknown, .low⟩
    | .ok (i, c) => ⟨i, c⟩

/-- The function `resolveSearchIntent`, instrumented with the number of model calls
it performs (second component). -/
def resolveSearchIntent (env : IntentEnv) (query providedIntent : Option String) :
    ResolvedIntent × Nat :=
  match normalizeSearchIntent providedIntent with
  | some normalized => (⟨normalized, .high⟩, 0)
  | none =>
    -- `!query || query.trim().length === 0`
    if (jsTrim (query.getD "")).length = 0 then (⟨.unknown, .low⟩, 0)
    else (detectSearchIntent env ((query.getD "")), 1)

/-- The index post-processing of `filterItemsByIntent`: keep the
1-based entries that are integers in range (the parsed JSON numbers are
modelled by `Int`, so `Number.isInteger` holds of all of them), shifted
to 0-based.  The JS `Set` is represented by the list of inserted
indices; downstream code uses only membership and nullity. -/
def collectKeepIndices (itemCount : Nat) (keep : List Int) : List Nat :=
  (keep.filter (fun i => 1 ≤ i && i ≤ (itemCount : Int))).map (fun i => (i - 1).toNat)

/-- The function `filterItemsByIntent`, instrumented with its model-call count.
Returns `none` (filter bypassed) when no query is given, the intent is
`unknown`, the item list is empty, or the model call / parse fails. -/
def filterItemsByIntent (env : IntentEnv) (query : Option String)
    (intent : SearchIntent) (items : List FilterItem) :
    Option (List Nat) × Nat :=
  -- `if (!query || intent === "unknown" || items.length === 0)`
  if query.getD "" = "" || intent = .unknown || items.length = 0 then
    (none, 0)
  else
    match env.invokeCheap (.filterPrompt (query.getD "") intent items) with
    | .error _ => (none, 1)
    | .ok content =>
      match env.parseKeep content with
      | .error _ => (none, 1)
      | .ok keep => (some (collectKeepIndices items.length keep), 1)

/-!
## Time-range detection (`detectTimeRanges`)

ISO `YYYY-MM-DD` date strings are modelled by their epoch-day numbers:
on well-formed date strings, lexicographic string order agrees with
epoch-day order, `new Date(s).getTime()` is `day * 86400000`, and
`toISOString().split("T")[0]` of a UTC timestamp `t` is the day
`t / 86400000`.  `new Date((a + b) / 2)` truncates the possibly
half-integral millisecond average toward zero, which on naturals is
floor division by 2.
-/

/-- Milliseconds per day. -/
def msPerDay : Nat := 86400000

/-- Epoch day of the `"2000-01-01"` default used when the store is
empty. -/
def epochDay2000 : Nat := 10957

/-- A `{start, end}` time range; both bounds are epoch days. -/
structure TimeRange where
  start : Nat
  stop : Nat
  deriving DecidableEq, Repr

/-- The midpoint date computed by the fallback split:
`new Date((earliest.getTime() + latest.getTime()) / 2)` rendered back to
a date string. -/
def midpointDay (earliest latest : Nat) : Nat :=
  ((earliest * msPerDay + latest * msPerDay) / 2) / msPerDay

/-- The model-extraction phase of `detectTimeRanges`: one
schema-constrained cheap-model call; `some` only when the call and the
parse succeed, the extraction reports a time reference, and both
periods are present.  Any error is caught (`catch` falls through to the
default split). -/
def detectTimeRangesExtract (env : IntentEnv) (query : String)
    (earliestInDb latestInDb : Nat) : Option (TimeRange × TimeRange) :=
  match env.invokeCheap (.timePrompt query earliestInDb latestInDb) with
  | .error _ => none
  | .ok content =>
    match env.parseTime content with
    | .error _ => none
    | .ok extracted =>
      match extracted.hasTimeReference, extracted.earlierPeriod, extracted.laterPeriod with
      | true, some (es, ee), some (ls, le) => some (⟨es, ee⟩, ⟨ls, le⟩)
      | _, _, _ => none

/-- The function `detectTimeRanges`: the store's observed `iso_date` range (each
bound `none` when the respective query returns no row) is defaulted to
`2000-01-01` / today, the model extraction is attempted, and on decline
or failure the observed span is split at its midpoint. -/
def detectTimeRanges (env : IntentEnv) (query : String)
    (storeEarliest storeLatest : Option Nat) (today : Nat) :
    TimeRange × TimeRange :=
  let earliestInDb := storeEarliest.getD epochDay2000
  let latestInDb := storeLatest.getD today
  match detectTimeRangesExtract env query earliestInDb latestInDb with
  | some p => p
  | none =>
    let midpoint := midpointDay earliestInDb latestInDb
    (⟨earliestInDb, midpoint⟩, ⟨midpoint, latestInDb⟩)

/-!
## Header-pattern normalization (STRATEGY path)

`normalizeHeaderToPattern` as in the monolithic graph file (the full
eight-pattern table described by the specification; the copy in
`agenticTasks.ts` keeps only the first four patterns).
-/

/-- The function `normalizeHeaderToPattern` of the monolithic graph file. -/
def normalizeHeaderToPattern (header : String) : String :=
  let lower := jsToLower header
  if jsIncludes lower "how to" then "How to guides"
  else if jsIncludes lower "best" || jsIncludes lower "top" then "Best of lists"
  else if jsIncludes lower "step" then "Step-by-step tutorials"
  else if jsIncludes lower "guide" then "Comprehensive guides"
  else if jsIncludes lower "vs" || jsIncludes lower "versus" then "Comparison articles"
  else if jsIncludes lower "review" then "Product reviews"
  else if jsIncludes lower "tips" then "Tips & tricks"
  else if jsIncludes lower "what is" || jsIncludes lower "what are" then
    "Definition/explainer content"
  else jsSliceTake header 50

/-- The header-mapping table exactly as the specification states it: a
fixed list of (trigger substrings, label) rows tried in order, with
every non-matching header truncated to its first 50 characters.  The
spec's prose category names denote the label constants of the code.
This definition follows the spec's words, to be compared with
`normalizeHeaderToPattern` above; the spec's table has no "versus"
trigger. -/
def specHeaderTable : List (List String × String) :=
  [(["how to"], "How to guides"),
   (["best", "top"], "Best of lists"),
   (["step"], "Step-by-step tutorials"),
   (["guide"], "Comprehensive guides"),
   (["vs"], "Comparison articles"),
   (["review"], "Product reviews"),
   (["tips"], "Tips & tricks"),
   (["what is", "what are"], "Definition/explainer content")]

/-- The claimed header normalization: first matching row of
`specHeaderTable`, else truncation. -/
def specHeaderPattern (header : String) : String :=
  match specHeaderTable.find? (fun row => row.1.any (fun p => jsIncludes (jsToLower header) p)) with
  | some row => row.2
  | none => jsSliceTake header 50

/-- The amended table: the code additionally maps headers containing
"versus" to comparison articles. -/
def specHeaderTableAmended : List (List String × String) :=
  [(["how to"], "How to guides"),
   (["best", "top"], "Best of lists"),
   (["step"], "Step-by-step tutorials"),
   (["guide"], "Comprehensive guides"),
   (["vs", "versus"], "Comparison articles"),
   (["review"], "Product reviews"),
   (["tips"], "Tips & tricks"),
   (["what is", "what are"], "Definition/explainer content")]

/-- The amended header normalization. -/
def specHeaderPatternAmended (header : String) : String :=
  match specHeaderTableAmended.find?
      (fun row => row.1.any (fun p => jsIncludes (jsToLower header) p)) with
  | some row => row.2
  | none => jsSliceTake header 50

/-!
## Schema-repair guard (`withStructuredOutputGuards` of `guardrails.ts`)

The wrapped runnable is an oracle taking the 0-based invocation index
and the current input; it returns the extracted text of the model
response (`extractTextFromOutput(result)`) or a rejection.  The
`StructuredOutputParser` for the given zod schema is an oracle `parse`.
The guard is instrumented with the number of model invocations
performed (second component of the result).
-/

/-- The input shapes the guard can repair: a prompt string, a message
history, or some other object (left untouched on repair). -/
inductive GuardInput where
  | str (s : String)
  | msgs (l : List ConvMsg)
  | other
  deriving Repr

/-- The fixed prefix of the auto-repair correction notice. -/
def repairNoticeHead : String :=
  "\n\nSYSTEM: The previous output failed validation with error: \""

/-- The fixed suffix of the auto-repair correction notice. -/
def repairNoticeTail : String :=
  "\". Please try again and ensure you strictly follow the format instructions."

/-- The correction notice, naming the caught error's message. -/
def repairPrompt (errorMessage : String) : String :=
  repairNoticeHead ++ errorMessage ++ repairNoticeTail

/-- The auto-repair feedback step: append the correction notice to a
string input, append an `AIMessage("...")` / `HumanMessage(notice)`
pair to a message-list input, and leave any other input unchanged. -/
def repairInput (input : GuardInput) (errorMessage : String) : GuardInput :=
  match input with
  | .str s => .str (s ++ repairPrompt errorMessage)
  | .msgs l => .msgs (l ++ [⟨"assistant", "..."⟩, ⟨"user", repairPrompt errorMessage⟩])
  | .other => .other

/-- One iteration of the guarded try-block: invoke the runnable, pass
the raw text through the output-safety guard, and parse it.  The
`Except.error` carries the caught error's message (a model rejection's
message or the parser's message), which feeds the repair prompt. -/
def oneAttempt {T : Type} (runnable : Nat → GuardInput → Except AppError String)
    (parse : String → Except String T) (invocation : Nat) (input : GuardInput) :
    Except String T :=
  match runnable invocation input with
  | .error e => .error e.message
  | .ok raw => parse (guardText raw)

/-- The `GuardrailError` message raised when the retry budget is
spent. -/
def guardrailExhaustedMsg (maxRetries : Nat) : String :=
  "Failed to generate valid structured output after " ++ toString maxRetries ++ " retries."

/-- The `while (attempts <= maxRetries)` loop of
`withStructuredOutputGuards`, with `remaining = maxRetries - attempts`
iterations left after the current one and `invocation` model calls
already made.  On failure the attempt counter advances; once it
exceeds `maxRetries` a `GuardrailError` is thrown, otherwise the input
is repaired and the loop re-enters. -/
def guardLoop {T : Type} (runnable : Nat → GuardInput → Except AppError String)
    (parse : String → Except String T) (maxRetries : Nat) :
    Nat → Nat → GuardInput → Except AppError T × Nat
  | remaining, invocation, input =>
    match oneAttempt runnable parse invocation input with
    | .ok v => (.ok v, invocation + 1)
    | .error errorMessage =>
      match remaining with
      | 0 => (.error (.guardrailError (guardrailExhaustedMsg maxRetries)), invocation + 1)
      | r + 1 =>
        guardLoop runnable parse maxRetries r (invocation + 1)
          (repairInput input errorMessage)

/-- The wrapper `withStructuredOutputGuards` of `guardrails.ts`, instrumented with
the number of model invocations. -/
def withStructuredOutputGuards {T : Type}
    (runnable : Nat → GuardInput → Except AppError String)
    (parse : String → Except String T) (maxRetries : Nat) (input : GuardInput) :
    Except AppError T × Nat :=
  guardLoop runnable parse maxRetries maxRetries 0 input

/-!
## Cluster-label normalization (`normalizeClusterLabel` of
`agenticTasks.ts`)

The three chained regex replacements are embedded directly:
`/[-_]+/g → " "` collapses each maximal dash/underscore run to one
space; `/^(cluster|niche)[:\-\s]+/i` strips a leading label word
followed by at least one separator; `/(?:\s+|[-_]+)?(cluster|niche)$/i`
strips a trailing label word with its optional separator run (modelled
as the maximal homogeneous run adjacent to the word).
-/

/-- Collapse maximal `[-_]+` runs to a single space (`prevDash` records
whether the previous character belonged to a run). -/
def collapseDashRuns (prevDash : Bool) : List Char → List Char
  | [] => []
  | c :: rest =>
    if c = '-' || c = '_' then
      if prevDash then collapseDashRuns true rest
      else ' ' :: collapseDashRuns true rest
    else c :: collapseDashRuns false rest

/-- The separator class `[:\-\s]` of the leading-label regex. -/
def labelSepChar (c : Char) : Bool :=
  c = ':' || c = '-' || isJsWhitespace c

/-- Strip one case-insensitive label word plus at least one separator
from the front, if present. -/
def stripLeadingLabelWord (word l : List Char) : Option (List Char) :=
  if word.isPrefixOf (l.map Char.toLower) then
    let rest := l.drop word.length
    let stripped := rest.dropWhile labelSepChar
    if stripped.length < rest.length then some stripped else none
  else none

/-- The replacement `^(cluster|niche)[:\-\s]+ → ""` (case-insensitive). -/
def stripLeadingLabel (l : List Char) : List Char :=
  match stripLeadingLabelWord "cluster".data l with
  | some r => r
  | none =>
    match stripLeadingLabelWord "niche".data l with
    | some r => r
    | none => l

/-- Strip one trailing case-insensitive label word plus its optional
homogeneous separator run, working on the reversed list. -/
def stripTrailingLabelWord (word r : List Char) : Option (List Char) :=
  if word.reverse.isPrefixOf (r.map Char.toLower) then
    let rest := r.drop word.length
    let restWs := rest.dropWhile isJsWhitespace
    let restDash := rest.dropWhile (fun c => c = '-' || c = '_')
    some (if restWs.length < rest.length then restWs
          else if restDash.length < rest.length then restDash
          else rest)
  else none

/-- The replacement `(?:\s+|[-_]+)?(cluster|niche)$ → ""` (case-insensitive). -/
def stripTrailingLabel (l : List Char) : List Char :=
  let r := l.reverse
  match stripTrailingLabelWord "cluster".data r with
  | some res => res.reverse
  | none =>
    match stripTrailingLabelWord "niche".data r with
    | some res => res.reverse
    | none => l

/-- The function `normalizeClusterLabel` of `agenticTasks.ts` (`none` is a JS
`undefined` argument; the empty string is also falsy for `!raw`). -/
def normalizeClusterLabel (raw : Option String) : String :=
  match raw with
  | none => ""
  | some r =>
    if r = "" then ""
    else
      let cleaned := jsTrim r
      if cleaned.length = 0 then ""
      else jsTrim ⟨stripTrailingLabel (stripLeadingLabel (collapseDashRuns false cleaned.data))⟩

/-!
## JSON payloads

A tool result is the `JSON.stringify` image of a JS value; it is
represented by the value itself (`Json` below), on which stringification
is injective.  A JS `undefined` field is rendered `null`; JS float
results (averages, percentages, `toFixed(1)` strings) are carried
exactly as `rat num den`.
-/

/-- The JSON values built by the retrieval tools. -/
inductive Json where
  | null
  | bool (b : Bool)
  | num (n : Int)
  | rat (num : Int) (den : Nat)
  | str (s : String)
  | arr (elems : List Json)
  | obj (fields : List (String × Json))

/-- An optional string field. -/
def optStr : Option String → Json
  | some s => .str s
  | none => .null

/-- An optional numeric field. -/
def optNat : Option Nat → Json
  | some n => .num n
  | none => .null

/-- An optional string-list field. -/
def optStrList : Option (List String) → Json
  | some l => .arr (l.map .str)
  | none => .null

/-- The structured `{error}` payload. -/
def errorPayload (msg : String) : Json :=
  .obj [("error", .str msg)]

/-!
## Document store (supabase + vector store)

A supabase query-builder chain is recorded as a `QuerySpec` and
executed by the environment, which answers with the `{data, error}`
shape supabase resolves with (query errors are in-band, the promise
does not reject).  The vector store's methods, by contrast, can reject:
they return `Except`.
-/

/-- The `metadata` column of `seo_documents` (fields used by the
orchestration core; absent JSON fields are `none`). -/
structure SerpMeta where
  query : Option String := none
  cluster : Option String := none
  domain : Option String := none
  iso_date : Option String := none
  position : Option Nat := none
  serp_features : Option (List String) := none
  deriving Repr

/-- A `{content, metadata}` row (also standing for a vector-store
`Document` with `pageContent` and `metadata`). -/
structure SupaRow where
  content : String
  metadata : SerpMeta
  deriving Repr

/-- A recorded supabase query-builder chain on `seo_documents`.  The
`ilike` patterns record the string interpolated into `%…%`. -/
structure QuerySpec where
  select : String
  eqCluster : Option String := none
  ilikeCluster : Option String := none
  ilikeQuery : Option String := none
  posLte : Option Nat := none
  posGte : Option Nat := none
  notSerpFeaturesEmpty : Bool := false
  orderAsc : Option String := none
  orderDesc : Option String := none
  limit : Nat
  deriving Repr

/-- The `{data, error}` value a supabase query resolves with. -/
structure SupaResult where
  data : Option (List SupaRow) := none
  error : Option String := none
  deriving Repr

/-- One parsed entry of the content-type analysis JSON. -/
structure AnalysisEntry where
  content_type : String
  position : Int
  domain : String
  deriving Repr

/-- The data interpolated into `analyze_content_types`' one main-model
call (system message plus result listing; prompt text elided). -/
structure AnalysisCall where
  intentFilterApplied : Bool
  detectedIntent : SearchIntent
  items : List SupaRow

/-- The external services used by the retrieval tools: the agentic
cheap-model oracles, the supabase client, the vector store (whose
methods can reject), the main model and the external `JSON.parse`-based
analysis extraction (`none`: no brace-delimited JSON or a parse
throw). -/
structure ToolEnv where
  intentEnv : IntentEnv
  supaQuery : QuerySpec → SupaResult
  similaritySearch : String → Nat → Except AppError (List SupaRow)
  similaritySearchWithScore : String → Nat → Except AppError (List (SupaRow × Rat))
  invokeMain : AnalysisCall → Except AppError String
  parseAnalysis : String → Option (List AnalysisEntry)

/-- The default `minSimilarityScore` of `detectClusterFromQuery`. -/
def minSimilarityDefault : Rat := (4 : Rat) / 5

/-- The function `extractClusterHint` of `agenticTasks.ts`: one schema-constrained
cheap-model call; any failure degrades to `""`; a parsed hint is
normalized. -/
def extractClusterHint (env : ToolEnv) (query : String) (history : List ConvMsg) : String :=
  match env.intentEnv.invokeCheap (.hintPrompt query history) with
  | .error _ => ""
  | .ok content =>
    match env.intentEnv.parseHint content with
    | .error _ => ""
    | .ok cluster => normalizeClusterLabel cluster

/-- The `eq`-by-cluster existence check of `detectClusterFromQuery`. -/
def clusterExistsSpec (clusterHint : String) : QuerySpec :=
  { select := "metadata", eqCluster := some clusterHint, limit := 1 }

/-- The function `detectClusterFromQuery` of `agenticTasks.ts`: confirm an extracted
hint against the store, else fall back to a single nearest-neighbour
vector search thresholded at `minSimilarityScore`.  The vector-store
call is not guarded: its rejection propagates. -/
def detectClusterFromQuery (env : ToolEnv) (query : String)
    (minSimilarityScore : Rat) (history : List ConvMsg) : Except AppError String :=
  let clusterHint := extractClusterHint env query history
  let hintConfirmed : Bool :=
    clusterHint ≠ "" &&
      (let r := env.supaQuery (clusterExistsSpec clusterHint)
       r.error = none && match r.data with
         | some rows => decide (0 < rows.length)
         | none => false)
  if hintConfirmed then .ok clusterHint
  else
    match env.similaritySearchWithScore query 1 with
    | .error e => .error e
    | .ok [] => .ok ""
    | .ok ((doc, score) :: _) =>
      if minSimilarityScore ≤ score then .ok (doc.metadata.cluster.getD "") else .ok ""

/-!
## The five retrieval tools (`src/src/app/tools.ts`)

Each tool function receives its arguments after zod validation (so the
schema defaults are already applied: `limit.getD 10` etc. at the call
sites below); `jsOrNat` mirrors a further `limit || n` in the body.
-/

/-- The document projection returned by `search_by_query`. -/
def docJson (row : SupaRow) : Json :=
  .obj [("content", .str row.content),
        ("position", optNat row.metadata.position),
        ("domain", optStr row.metadata.domain),
        ("cluster", optStr row.metadata.cluster),
        ("serp_features", optStrList row.metadata.serp_features),
        ("date", optStr row.metadata.iso_date)]

/-- The exact-cluster query of `search_by_query`. -/
def searchByClusterSpec (clusterHint : String) (limit : Nat) : QuerySpec :=
  { select := "content, metadata", eqCluster := some clusterHint,
    orderAsc := some "metadata->>position", limit := limit }

/-- The tool `search_by_query`: prefer an exact cluster filter when a hint can be
extracted; otherwise vector search (whose rejection propagates). -/
def searchByQuery (env : ToolEnv) (searchQuery : String) (limit : Nat) :
    Except AppError Json :=
  let clusterHint := extractClusterHint env searchQuery []
  let hintRows : Option (List SupaRow) :=
    if clusterHint ≠ "" then
      let r := env.supaQuery (searchByClusterSpec clusterHint limit)
      if r.error = none then
        match r.data with
        | some rows => if 0 < rows.length then some rows else none
        | none => none
      else none
    else none
  match hintRows with
  | some rows => .ok (.arr (rows.map docJson))
  | none =>
    match env.similaritySearch searchQuery limit with
    | .error e => .error e
    | .ok docs => .ok (.arr (docs.map docJson))

/-- The `{content, ...metadata}` spread used by `get_top_performers`. -/
def metaFields (m : SerpMeta) : List (String × Json) :=
  [("query", optStr m.query), ("cluster", optStr m.cluster),
   ("domain", optStr m.domain), ("iso_date", optStr m.iso_date),
   ("position", optNat m.position), ("serp_features", optStrList m.serp_features)]

/-- A bare metadata object. -/
def metaJson (m : SerpMeta) : Json :=
  .obj (metaFields m)

/-- A row spread into `{content, ...metadata}`. -/
def rowSpreadJson (row : SupaRow) : Json :=
  .obj (("content", .str row.content) :: metaFields row.metadata)

/-- The shared cluster resolution
`normalizeClusterLabel(cluster) || ((query && detectClusterFromQuery(query)) || "")`
of `get_top_performers` / `get_serp_features` (a falsy query skips the
detection call entirely). -/
def toolResolveCluster (env : ToolEnv) (cluster query : Option String) :
    Except AppError String :=
  let n := normalizeClusterLabel cluster
  if n ≠ "" then .ok n
  else if query.getD "" ≠ "" then
    detectClusterFromQuery env (query.getD "") minSimilarityDefault []
  else .ok ""

/-- The rank-1–3 query of `get_top_performers`, cluster variant. -/
def topPerformersClusterSpec (filterCluster : String) (limit : Nat) : QuerySpec :=
  { select := "content, metadata", posLte := some 3, posGte := some 1,
    orderAsc := some "metadata->>position", limit := jsOrNat limit 10,
    ilikeCluster := some filterCluster }

/-- The rank-1–3 query of `get_top_performers`, query-substring
fallback. -/
def topPerformersQuerySpec (query : String) (limit : Nat) : QuerySpec :=
  { select := "content, metadata", posLte := some 3, posGte := some 1,
    ilikeQuery := some (jsTrim query), orderAsc := some "metadata->>position",
    limit := jsOrNat limit 10 }

/-- The `try`-block body of `get_top_performers`; a supabase error is
re-thrown (`throw new Error(error.message)`) to be caught by the
tool's own handler. -/
def getTopPerformersBody (env : ToolEnv) (cluster query : Option String) (limit : Nat) :
    Except AppError Json :=
  match toolResolveCluster env cluster query with
  | .error e => .error e
  | .ok filterCluster =>
    let step1 : Except AppError (List Json) :=
      if filterCluster ≠ "" then
        let r := env.supaQuery (topPerformersClusterSpec filterCluster limit)
        match r.error with
        | some msg => .error (.storeError msg)
        | none => .ok ((r.data.getD []).map rowSpreadJson)
      else .ok []
    match step1 with
    | .error e => .error e
    | .ok results =>
      let step2 : Except AppError (List Json) :=
        if results.length = 0 ∧ jsTrim (query.getD "") ≠ "" then
          let r := env.supaQuery (topPerformersQuerySpec (query.getD "") limit)
          match r.error with
          | some msg => .error (.storeError msg)
          | none => .ok ((r.data.getD []).map rowSpreadJson)
        else .ok results
      match step2 with
      | .error e => .error e
      | .ok results2 =>
        if results2.length = 0 then
          .ok (.obj [("warning", .str "No top-ranking snippets found."),
                     ("results", .arr [])])
        else .ok (.arr results2)

/-- The tool `get_top_performers`: the whole body runs inside `try`/`catch`; any
thrown error becomes a structured `{error}` payload. -/
def getTopPerformers (env : ToolEnv) (cluster query : Option String) (limit : Nat) :
    Except AppError Json :=
  match getTopPerformersBody env cluster query limit with
  | .ok j => .ok j
  | .error e => .ok (errorPayload e.message)

/-- The row projection of `get_serp_features`. -/
structure SerpProjected where
  content : String
  serp_features : Option (List String)
  query : Option String
  cluster : Option String
  position : Option Nat
  deriving Repr

/-- JSON image of a `get_serp_features` row. -/
def serpProjectedJson (r : SerpProjected) : Json :=
  .obj [("content", .str r.content), ("serp_features", optStrList r.serp_features),
        ("query", optStr r.query), ("cluster", optStr r.cluster),
        ("position", optNat r.position)]

/-- The non-empty-features query of `get_serp_features`. -/
def serpFeaturesSpec (resolvedCluster : String) (query : Option String) (limit : Nat) :
    QuerySpec :=
  { select := "content, metadata", notSerpFeaturesEmpty := true,
    limit := jsOrNat limit 20,
    ilikeCluster := if resolvedCluster = "" then none else some resolvedCluster,
    ilikeQuery := if query.getD "" = "" then none else some (query.getD "") }

/-- The insertion-ordered frequency bump of the feature histogram. -/
def bumpFreq (freq : List (String × Nat)) (k : String) : List (String × Nat) :=
  if freq.any (fun p => p.1 = k) then
    freq.map (fun p => if p.1 = k then (p.1, p.2 + 1) else p)
  else freq ++ [(k, 1)]

/-- The tool `get_serp_features`: cluster resolution (whose vector-store
rejection propagates — no `try`/`catch` here), one supabase query with
in-band error payload, optional case-insensitive feature filter, and a
frequency histogram plus a 10-item sample. -/
def getSerpFeatures (env : ToolEnv) (cluster query feature : Option String)
    (limit : Nat) : Except AppError Json :=
  match toolResolveCluster env cluster query with
  | .error e => .error e
  | .ok resolvedCluster =>
    let r := env.supaQuery (serpFeaturesSpec resolvedCluster query limit)
    match r.error with
    | some msg => .ok (errorPayload msg)
    | none =>
      let results0 := (r.data.getD []).map (fun row =>
        SerpProjected.mk row.content row.metadata.serp_features row.metadata.query
          row.metadata.cluster row.metadata.position)
      let results :=
        if feature.getD "" ≠ "" then
          results0.filter (fun rr => (rr.serp_features.getD []).any
            (fun f => jsIncludes (jsToLower f) (jsToLower (feature.getD ""))))
        else results0
      let featureFrequency := results.foldl
        (fun acc rr => (rr.serp_features.getD []).foldl bumpFreq acc) []
      .ok (.obj
        [("feature_frequency", .obj (featureFrequency.map (fun p => (p.1, Json.num p.2)))),
         ("sample_results", .arr ((results.take 10).map serpProjectedJson))])

/-- The cluster dump query of `get_cluster_data`. -/
def clusterDataSpec (resolvedCluster : String) (limit : Nat) : QuerySpec :=
  { select := "content, metadata", ilikeCluster := some resolvedCluster,
    orderAsc := some "metadata->>position", limit := jsOrNat limit 50 }

/-- Keep-first deduplication (`[...new Set(xs)]`). -/
def dedupKeepFirst {α : Type} [DecidableEq α] (seen : List α) : List α → List α
  | [] => []
  | a :: rest =>
    if a ∈ seen then dedupKeepFirst seen rest
    else a :: dedupKeepFirst (a :: seen) rest

/-- The tool `get_cluster_data`: one supabase query with in-band error payload
and sample-bounded aggregates (unique domains, mean position as the
exact rational `sum/len`). -/
def getClusterData (env : ToolEnv) (cluster : String) (limit : Nat) :
    Except AppError Json :=
  let n := normalizeClusterLabel (some cluster)
  let resolvedCluster := if n ≠ "" then n else cluster
  let r := env.supaQuery (clusterDataSpec resolvedCluster limit)
  match r.error with
  | some msg => .ok (errorPayload msg)
  | none =>
    let results := (r.data.getD []).map (·.metadata)
    let domains := dedupKeepFirst [] (results.map (·.domain))
    let positions := results.filterMap (·.position)
    let avgPosition : Json :=
      if 0 < positions.length then .rat positions.sum positions.length else .null
    .ok (.obj [("requested_cluster", .str cluster),
               ("total_results", .num results.length),
               ("unique_domains", .arr (domains.map optStr)),
               ("avg_position", avgPosition),
               ("sample_data", .arr ((results.take 15).map metaJson))])

/-!
## `analyze_content_types` and the generic intent-filter helper
-/

/-- The serialized name of a search intent. -/
def searchIntentLabel : SearchIntent → String
  | .informational => "informational"
  | .navigational => "navigational"
  | .transactional => "transactional"
  | .unknown => "unknown"

/-- Result record of `applyIntentFilterToItems`. -/
structure IntentFilterOutcome where
  resolvedIntent : ResolvedIntent
  filteredItems : List SupaRow
  intentFilterApplied : Bool
  filteredOutCount : Nat

/-- The helper `applyIntentFilterToItems` of `agenticTasks.ts`, instantiated at
supabase rows with the projection used by `analyze_content_types`
(`domain`, `position`, 150-character snippet): Intent Resolver plus
Relevance Filter; a `null` keep-set keeps every item. -/
def applyIntentFilterToItems (env : IntentEnv) (query providedIntent : Option String)
    (items : List SupaRow) : IntentFilterOutcome :=
  let resolved := (resolveSearchIntent env query providedIntent).1
  let filterItems := items.enum.map (fun p =>
    { index := p.1, domain := p.2.metadata.domain, position := p.2.metadata.position,
      snippet := some (jsSliceTake p.2.content 150) : FilterItem })
  let keepIndices := (filterItemsByIntent env query resolved.intent filterItems).1
  let filteredItems := match keepIndices with
    | some keep => (items.enum.filter (fun p => keep.contains p.1)).map (·.2)
    | none => items
  { resolvedIntent := resolved, filteredItems,
    intentFilterApplied := keepIndices.isSome,
    filteredOutCount := items.length - filteredItems.length }

/-- The cluster resolution of `analyze_content_types`:
`normalizeClusterLabel(cluster) || cluster || ((query && detect) || "")`. -/
def analyzeResolveCluster (env : ToolEnv) (cluster query : Option String) :
    Except AppError String :=
  let n := normalizeClusterLabel cluster
  if n ≠ "" then .ok n
  else if cluster.getD "" ≠ "" then .ok (cluster.getD "")
  else if query.getD "" ≠ "" then
    detectClusterFromQuery env (query.getD "") minSimilarityDefault []
  else .ok ""

/-- The rank-bounded query of `analyze_content_types`. -/
def analyzeSpec (resolvedCluster : String) (query : Option String)
    (positionThreshold : Nat) : QuerySpec :=
  { select := "content, metadata", posLte := some (jsOrNat positionThreshold 10),
    orderAsc := some "metadata->>position", limit := 100,
    ilikeCluster := if resolvedCluster = "" then none else some resolvedCluster,
    ilikeQuery := if query.getD "" = "" then none else some (query.getD "") }

/-- Per-content-type aggregate of the analysis loop. -/
structure CTAgg where
  count : Nat
  positions : List Int
  examples : List String
  deriving Repr

/-- The `"domain (pos n)"` example string. -/
def exampleOf (a : AnalysisEntry) : String :=
  a.domain ++ " (pos " ++ toString a.position ++ ")"

/-- One step of the insertion-ordered per-type aggregation (count,
positions, at most one example). -/
def bumpContentType (acc : List (String × CTAgg)) (a : AnalysisEntry) :
    List (String × CTAgg) :=
  if acc.any (fun p => p.1 = a.content_type) then
    acc.map (fun p =>
      if p.1 = a.content_type then
        (p.1, { count := p.2.count + 1, positions := p.2.positions ++ [a.position],
                examples := if p.2.examples.length < 1
                  then p.2.examples ++ [exampleOf a] else p.2.examples })
      else p)
  else acc ++ [(a.content_type, { count := 1, positions := [a.position],
                                  examples := [exampleOf a] })]

/-- The percentage `Math.round((count / total) * 100)` as exact rational rounding
(half away from zero upward, as JS `Math.round`; `total = 0` is the JS
`NaN` edge, mapped to `0` here). -/
def jsRoundPct (count total : Nat) : Nat :=
  (200 * count + total) / (2 * total)

/-- Stable insertion step for the count-descending sort. -/
def insertByCountDesc (x : String × CTAgg) :
    List (String × CTAgg) → List (String × CTAgg)
  | [] => [x]
  | y :: rest =>
    if y.2.count ≤ x.2.count then x :: y :: rest
    else y :: insertByCountDesc x rest

/-- The sort `sort((a, b) => b.count - a.count)` (stable, as JS `Array.sort`). -/
def sortByCountDesc : List (String × CTAgg) → List (String × CTAgg)
  | [] => []
  | x :: rest => insertByCountDesc x (sortByCountDesc rest)

/-- One `content_type_breakdown` entry (`avg_position` is the exact
rational behind the `toFixed(1)` rendering). -/
def breakdownEntryJson (total : Nat) (p : String × CTAgg) : Json :=
  .obj [("content_type", .str p.1),
        ("count", .num p.2.count),
        ("percentage", .num (jsRoundPct p.2.count total)),
        ("avg_position", .rat p.2.positions.sum p.2.positions.length),
        ("top_3_count", .num ((p.2.positions.filter (fun q => q ≤ 3)).length)),
        ("examples", .arr (p.2.examples.map .str))]

/-- The tool `analyze_content_types`: cluster resolution and the one main-model
call are unguarded (rejections propagate); supabase errors, empty data,
an empty post-filter set and an unparseable analysis all fail closed
with structured `{error}` payloads.  (In the source the empty-filter
check sits inside the `if (intent)` block; without a provided intent
the filtered set equals the non-empty `data`, so the placement is
equivalent.) -/
def analyzeContentTypes (env : ToolEnv) (cluster query intent : Option String)
    (positionThreshold : Nat) : Except AppError Json :=
  match analyzeResolveCluster env cluster query with
  | .error e => .error e
  | .ok resolvedCluster =>
    let r := env.supaQuery (analyzeSpec resolvedCluster query positionThreshold)
    match r.error with
    | some msg => .ok (errorPayload msg)
    | none =>
      let data := r.data.getD []
      if data.length = 0 then
        .ok (.obj [("error", .str "No data found for analysis"),
                   ("filters_used", .obj [("cluster", .str resolvedCluster),
                                          ("query", optStr query),
                                          ("positionThreshold", .num positionThreshold)])])
      else
        let outcome :=
          if intent.getD "" ≠ "" then applyIntentFilterToItems env.intentEnv query intent data
          else { resolvedIntent := ⟨.unknown, .low⟩, filteredItems := data,
                 intentFilterApplied := false, filteredOutCount := 0 }
        if outcome.filteredItems.length = 0 then
          .ok (.obj [("error", .str "No results match the specified intent"),
                     ("intent", .str (searchIntentLabel outcome.resolvedIntent.intent)),
                     ("intent_filter_applied", .bool outcome.intentFilterApplied),
                     ("filtered_out", .num outcome.filteredOutCount),
                     ("filters_used", .obj [("cluster", optStr cluster),
                                            ("query", optStr query),
                                            ("intent", optStr intent),
                                            ("positionThreshold", .num positionThreshold)])])
        else
          match env.invokeMain ⟨outcome.intentFilterApplied,
              outcome.resolvedIntent.intent, outcome.filteredItems⟩ with
          | .error e => .error e
          | .ok content =>
            match env.parseAnalysis content with
            | none =>
              .ok (.obj [("error", .str "Failed to parse content analysis"),
                         ("raw_response", .str (jsSliceTake content 200))])
            | some analyses =>
              let contentTypes := analyses.foldl bumpContentType []
              let totalResults := analyses.length
              let breakdown := sortByCountDesc contentTypes
              .ok (.obj
                [("summary", .str ("Analyzed " ++ toString totalResults ++ " top results")),
                 ("content_type_breakdown",
                   .arr (breakdown.map (breakdownEntryJson totalResults))),
                 ("intent", .str (searchIntentLabel outcome.resolvedIntent.intent)),
                 ("intent_filter_applied", .bool outcome.intentFilterApplied),
                 ("filtered_out", .num outcome.filteredOutCount)])

/-!
## STANDARD-loop tool executor and router phase (monolithic graph file)
-/

/-- Arguments of a model-emitted tool call (after zod validation; a
missing optional field is `none`). -/
structure ToolArgs where
  searchQuery : Option String := none
  cluster : Option String := none
  query : Option String := none
  feature : Option String := none
  intent : Option String := none
  limit : Option Nat := none
  positionThreshold : Option Nat := none
  deriving Repr

/-- A tool call emitted by the model (`id` is optional in LangChain). -/
structure ToolCall where
  name : String
  args : ToolArgs
  id : Option String
  deriving Repr

/-- A transcript message of the STANDARD loop. -/
inductive ChatMsg where
  | human (content : String)
  | ai (content : String) (tool_calls : List ToolCall)
  | tool (content : Json) (tool_call_id : String)

/-- The `switch (toolName)` dispatch of `toolExecutorNode`, with the
zod defaults applied on invocation and `analyze_content_types`' query
defaulted to the run's query (`analyzeArgs.query ?? state.query`). -/
def invokeRegisteredTool (env : ToolEnv) (stateQuery : String) (tc : ToolCall) :
    Except AppError Json :=
  match tc.name with
  | "search_by_query" =>
    searchByQuery env (tc.args.searchQuery.getD "") (tc.args.limit.getD 10)
  | "get_top_performers" =>
    getTopPerformers env tc.args.cluster tc.args.query (tc.args.limit.getD 10)
  | "get_serp_features" =>
    getSerpFeatures env tc.args.cluster tc.args.query tc.args.feature (tc.args.limit.getD 20)
  | "get_cluster_data" =>
    getClusterData env (tc.args.cluster.getD "") (tc.args.limit.getD 50)
  | "analyze_content_types" =>
    analyzeContentTypes env tc.args.cluster (some (tc.args.query.getD stateQuery))
      tc.args.intent (tc.args.positionThreshold.getD 10)
  | _ => .ok (errorPayload ("Unknown tool: " ++ tc.name))

/-- One iteration of the executor's `for` loop: a successful tool run
yields a `ToolMessage` with its result, a thrown error yields a
`ToolMessage` with the error text; either way the message carries
`toolCall.id || ""`. -/
def execToolCall (env : ToolEnv) (stateQuery : String) (tc : ToolCall) : ChatMsg :=
  match invokeRegisteredTool env stateQuery tc with
  | .ok result => .tool result (tc.id.getD "")
  | .error e => .tool (.str ("Error executing tool: " ++ e.message)) (tc.id.getD "")

/-- The node `toolExecutorNode`: `lastMessage.tool_calls || []` mapped through
the dispatch loop. -/
def toolExecutorNode (env : ToolEnv) (stateQuery : String) (messages : List ChatMsg) :
    List ChatMsg :=
  let toolCalls := match messages.getLast? with
    | some (.ai _ tcs) => tcs
    | _ => []
  toolCalls.map (execToolCall env stateQuery)

/-- The message list `standardResponseNode` hands to the tool-bound
model after the `tools` node ran: the LangGraph `messages` reducer
appends the executor's tool messages to the prior transcript, and the
node invokes the model on the accumulated `state.messages`. -/
def standardResponseModelInput (env : ToolEnv) (stateQuery : String)
    (messages : List ChatMsg) : List ChatMsg :=
  messages ++ toolExecutorNode env stateQuery messages

/-- The three router labels. -/
inductive QueryIntent where
  | STANDARD
  | COMPARISON
  | STRATEGY
  deriving DecidableEq, Repr

/-- The parsed `{intent, explanation}` router decision. -/
structure RouterDecision where
  intent : QueryIntent
  explanation : String
  deriving DecidableEq, Repr

/-- The node `routerNode` of the monolithic graph file: one model call and one
structured parse, with no `try`/`catch` — a rejection of either
propagates out of the node.  `modelResponse` is the awaited
`model.invoke` outcome (its content on success), `parse` the
`routerParser.parse` oracle. -/
def routerNode (modelResponse : Except AppError String)
    (parse : String → Except String RouterDecision) : Except AppError RouterDecision :=
  match modelResponse with
  | .error e => .error e
  | .ok content =>
    match parse content with
    | .error msg => .error (.parseError msg)
    | .ok decision => .ok decision

/-- The three path nodes reachable from the router's conditional
edge. -/
inductive PathNode where
  | standard_agent
  | strategy
  | comparison
  deriving DecidableEq, Repr

/-- The edge selector `routeByIntent`: `case "STANDARD": default:` both select the
standard agent (the state's intent starts out `null`). -/
def routeByIntent (intent : Option QueryIntent) : PathNode :=
  match intent with
  | some .STRATEGY => .strategy
  | some .COMPARISON => .comparison
  | _ => .standard_agent

/-- Outcome of the routing phase of one `seoGraph.invoke` run. -/
inductive RunOutcome where
  | completed (path : PathNode)
  | aborted (e : AppError)
  deriving DecidableEq, Repr

/-- The routing phase of a run: LangGraph propagates a node exception,
so a `routerNode` throw rejects the whole `seoGraph.invoke` and no path
executes; on success the conditional edge selects the path for the
parsed intent. -/
def runRouterPhase (modelResponse : Except AppError String)
    (parse : String → Except String RouterDecision) : RunOutcome :=
  match routerNode modelResponse parse with
  | .error e => .aborted e
  | .ok decision => .completed (routeByIntent (some decision.intent))

/-!
## Concrete stub environments (used by witnesses and counterexamples)
-/

/-- A cheap-model environment whose model is unavailable and whose
parsers all fail. -/
def failEnv : IntentEnv :=
  { invokeCheap := fun _ => .error (.modelError "model unavailable"),
    parseIntent := fun _ => .error "no parse",
    parseKeep := fun _ => .error "no parse",
    parseHint := fun _ => .error "no parse",
    parseTime := fun _ => .error "no parse" }

/-- A tool environment whose vector store is down (`similaritySearch`
rejects) and whose cheap model is unavailable (so no cluster hint is
ever extracted). -/
def storeDownEnv : ToolEnv :=
  { intentEnv := failEnv,
    supaQuery := fun _ => { data := some [], error := none },
    similaritySearch := fun _ _ => .error (.storeError "connection reset"),
    similaritySearchWithScore := fun _ _ => .error (.storeError "connection reset"),
    invokeMain := fun _ => .error (.modelError "model unavailable"),
    parseAnalysis := fun _ => none }

/-- A fully healthy-but-empty tool environment: every store query
answers with no rows, the vector store answers with no documents. -/
def emptyStoreEnv : ToolEnv :=
  { intentEnv := failEnv,
    supaQuery := fun _ => { data := some [], error := none },
    similaritySearch := fun _ _ => .ok [],
    similaritySearchWithScore := fun _ _ => .ok [],
    invokeMain := fun _ => .error (.modelError "model unavailable"),
    parseAnalysis := fun _ => none }

/-- The flaky structured-output stub of the guardrail test script:
invalid schema text on the first invocation, valid on the second. -/
def flakyRunnable : Nat → GuardInput → Except AppError String :=
  fun n _ => .ok (if n = 0 then "Sure! Name: Alice, Age: 30" else "42")

/-- A parser for a toy numeric schema: only the text `"42"` parses. -/
def parse42 : String → Except String Nat :=
  fun s => if s = "42" then .ok 42 else .error "Invalid JSON"

/-- A tool environment whose supabase queries all answer with an
in-band error (`{data: null, error}`), as supabase does on a failed
query. -/
def dbErrorEnv : ToolEnv :=
  { intentEnv := failEnv,
    supaQuery := fun _ => { data := none, error := some "permission denied" },
    similaritySearch := fun _ _ => .ok [],
    similaritySearchWithScore := fun _ _ => .ok [],
    invokeMain := fun _ => .error (.modelError "model unavailable"),
    parseAnalysis := fun _ => none }

/-- A sample stored document. -/
def sampleRow : SupaRow :=
  { content := "Best pizza ovens of 2026 — full review",
    metadata := { query := some "pizza ovens", cluster := some "pizza",
                  domain := some "ovens.example", iso_date := some "2026-01-15",
                  position := some 2, serp_features := some ["peopleAlsoAsk"] } }

/-- A tool environment whose store has one row, whose main model
answers with unparseable analysis text. -/
def parseFailEnv : ToolEnv :=
  { intentEnv := failEnv,
    supaQuery := fun _ => { data := some [sampleRow], error := none },
    similaritySearch := fun _ _ => .ok [sampleRow],
    similaritySearchWithScore := fun _ _ => .ok [(sampleRow, (9 : Rat) / 10)],
    invokeMain := fun _ => .ok "I could not produce JSON, sorry",
    parseAnalysis := fun _ => none }

/-- A cheap-model environment that always extracts the cluster hint
`"pizza"` (the hint call and its parse both succeed). -/
def hintEnvOk : IntentEnv :=
  { invokeCheap := fun _ => .ok "pizza",
    parseIntent := fun _ => .error "no parse",
    parseKeep := fun _ => .error "no parse",
    parseHint := fun _ => .ok (some "pizza"),
    parseTime := fun _ => .error "no parse" }

/-- A tool environment where the cluster hint resolves but every
supabase query fails in-band, while the vector store works: it
exercises `search_by_query`'s silent fallback from a supabase error to
vector search. -/
def hintDbErrorEnv : ToolEnv :=
  { intentEnv := hintEnvOk,
    supaQuery := fun _ => { data := none, error := some "permission denied" },
    similaritySearch := fun _ _ => .ok [sampleRow],
    similaritySearchWithScore := fun _ _ => .ok [(sampleRow, (9 : Rat) / 10)],
    invokeMain := fun _ => .error (.modelError "model unavailable"),
    parseAnalysis := fun _ => none }

/-- Two model-emitted tool calls (one registered, one unknown). -/
def sampleToolCalls : List ToolCall :=
  [⟨"get_top_performers", { cluster := some "pizza" }, some "call_1"⟩,
   ⟨"bogus_tool", {}, some "call_2"⟩]

/-- A transcript ending in an assistant message bearing
`sampleToolCalls`. -/
def sampleMessages : List ChatMsg :=
  [.human "Current question: what ranks best for pizza ovens?",
   .ai "" sampleToolCalls]

/-!
## Helper lemmas
-/

/-- Two candidate prefixes with different head characters cannot both
be prefixes of the same list. -/
theorem isPrefixOf_false_head {c d : Char} {p q l : List Char}
    (hne : d ≠ c) (hp : (c :: p).isPrefixOf l = true) :
    (d :: q).isPrefixOf l = false := by
  cases l with
  | nil => simp [List.isPrefixOf] at hp
  | cons a t =>
    by_cases hca : c = a
    · subst hca
      have hdc : (d == c) = false := by simp [hne]
      simp [List.isPrefixOf, hdc]
    · have hfa : (c == a) = false := by simp [hca]
      simp [List.isPrefixOf, hfa] at hp

/-- A prefix occurrence is in particular an infix occurrence. -/
theorem containsSub_of_isPrefixOf {pat l : List Char}
    (h : pat.isPrefixOf l = true) : containsSub pat l = true := by
  cases l with
  | nil =>
    cases pat with
    | nil => simp [containsSub]
    | cons c p => simp [List.isPrefixOf] at h
  | cons a t => simp [containsSub, h]

end SEO

namespace SEO

/-- C3: a model output whose extracted text contains one of the fixed
credential markers is replaced wholesale: the guarded value's content
is exactly the redaction marker `"[REDACTED]"` (an `AIMessage` stays an
`AIMessage` with redacted content, anything else becomes the redaction
string), so nothing of the original text survives. -/
theorem outputGuardrail_redacts (o : ModelOutput)
    (h : hasSensitive (extractTextFromOutput o) = true) :
    extractTextFromOutput (outputGuardrail o) = "[REDACTED]" ∧
    (outputGuardrail o = .str "[REDACTED]" ∨
     outputGuardrail o = .aiMessage "[REDACTED]") := by
  cases o <;> simp_all [outputGuardrail, extractTextFromOutput]

/-- Witness for C3 at a concrete leaking `AIMessage`. -/
theorem outputGuardrail_redacts_witness :
    hasSensitive (extractTextFromOutput (.aiMessage "the SECRET_KEY is 123")) = true ∧
    (extractTextFromOutput (outputGuardrail (.aiMessage "the SECRET_KEY is 123")) =
        "[REDACTED]" ∧
      (outputGuardrail (.aiMessage "the SECRET_KEY is 123") = .str "[REDACTED]" ∨
       outputGuardrail (.aiMessage "the SECRET_KEY is 123") = .aiMessage "[REDACTED]")) :=
  ⟨by decide, outputGuardrail_redacts _ (by decide)⟩

/-- C10: on an output whose extracted text contains none of the five
(case-sensitively matched) credential markers, `outputGuardrail` is the
identity. -/
theorem outputGuardrail_clean_identity (o : ModelOutput)
    (h : hasSensitive (extractTextFromOutput o) = false) :
    outputGuardrail o = o := by
  cases o <;> simp_all [outputGuardrail, extractTextFromOutput]

/-- Witness for C10: a lowercase marker variant passes through
unredacted. -/
theorem outputGuardrail_clean_identity_witness :
    hasSensitive (extractTextFromOutput (.aiMessage "rotate the api_key and access_token")) =
        false ∧
    outputGuardrail (.aiMessage "rotate the api_key and access_token") =
      .aiMessage "rotate the api_key and access_token" :=
  ⟨by decide, outputGuardrail_clean_identity _ (by decide)⟩

/-- C7: the relevance filter is bypassed — `keepIndices = null` with no
model call — whenever the query is absent, the intent is `unknown`, or
the item list is empty. -/
theorem filterItemsByIntent_bypass (env : IntentEnv) (query : Option String)
    (intent : SearchIntent) (items : List FilterItem)
    (h : query = none ∨ intent = .unknown ∨ items = []) :
    filterItemsByIntent env query intent items = (none, 0) := by
  rcases h with h | h | h <;> subst h <;> simp [filterItemsByIntent]

/-- Witness for C7 at each of the three bypass conditions. -/
theorem filterItemsByIntent_bypass_witness :
    filterItemsByIntent failEnv none .informational [⟨0, some "a.com", some 1, some "x"⟩] =
        (none, 0) ∧
    filterItemsByIntent failEnv (some "best pizza") .unknown
        [⟨0, some "a.com", some 1, some "x"⟩] = (none, 0) ∧
    filterItemsByIntent failEnv (some "best pizza") .informational [] = (none, 0) :=
  ⟨filterItemsByIntent_bypass _ _ _ _ (Or.inl rfl),
   filterItemsByIntent_bypass _ _ _ _ (Or.inr (Or.inl rfl)),
   filterItemsByIntent_bypass _ _ _ _ (Or.inr (Or.inr rfl))⟩

/-- C8: when the time-extraction model call declines or fails and the
store's observed range is non-degenerate, `detectTimeRanges` returns
exactly the midpoint split `earlier = [min, midpoint]`,
`later = [midpoint, max]`, and the four bounds are ordered
`earlier.start ≤ earlier.end ≤ later.start ≤ later.end` (the middle
two being equal). -/
theorem detectTimeRanges_midpoint_ordered (env : IntentEnv) (query : String)
    (e l today : Nat)
    (hdecline : detectTimeRangesExtract env query e l = none) (hel : e < l) :
    detectTimeRanges env query (some e) (some l) today =
      (⟨e, midpointDay e l⟩, ⟨midpointDay e l, l⟩) ∧
    e ≤ midpointDay e l ∧ midpointDay e l ≤ l := by
  refine ⟨by simp [detectTimeRanges, hdecline], ?_, ?_⟩
  · unfold midpointDay msPerDay
    omega
  · unfold midpointDay msPerDay
    omega

/-- Witness for C8 on a concrete declined extraction over the range
2000-01-01 … 2000-12-31 (epoch days 10957 … 11321, midpoint 11139). -/
theorem detectTimeRanges_midpoint_ordered_witness :
    detectTimeRangesExtract failEnv "how has the serp changed" 10957 11321 = none ∧
    10957 < 11321 ∧
    (detectTimeRanges failEnv "how has the serp changed" (some 10957) (some 11321) 20000 =
        (⟨10957, 11139⟩, ⟨11139, 11321⟩) ∧
      10957 ≤ 11139 ∧ 11139 ≤ 11321) :=
  ⟨rfl, by norm_num,
   detectTimeRanges_midpoint_ordered failEnv _ _ _ _ rfl (by norm_num)⟩

end SEO

namespace SEO

/-!
## Case lemmas for `normalizeSearchIntent`
-/

/-- An intent string whose normalization starts with `info` maps to
`informational`. -/
theorem normalizeSearchIntent_info {s : String}
    (h : jsStartsWith (jsTrimLower s) "info" = true) :
    normalizeSearchIntent (some s) = some .informational := by
  by_cases hs : s = ""
  · subst hs; exact absurd h (by decide)
  · simp [normalizeSearchIntent, hs, h]

/-- A `nav` prefix maps to `navigational`. -/
theorem normalizeSearchIntent_nav {s : String}
    (h : jsStartsWith (jsTrimLower s) "nav" = true) :
    normalizeSearchIntent (some s) = some .navigational := by
  by_cases hs : s = ""
  · subst hs; exact absurd h (by decide)
  · have h' : (('n' :: "av".data) : List Char).isPrefixOf (jsTrimLower s).data = true := h
    have hinfo : jsStartsWith (jsTrimLower s) "info" = false :=
      isPrefixOf_false_head (by decide) h'
    simp [normalizeSearchIntent, hs, h, hinfo]

/-- A `trans` prefix maps to `transactional`. -/
theorem normalizeSearchIntent_trans {s : String}
    (h : jsStartsWith (jsTrimLower s) "trans" = true) :
    normalizeSearchIntent (some s) = some .transactional := by
  by_cases hs : s = ""
  · subst hs; exact absurd h (by decide)
  · have h' : (('t' :: "rans".data) : List Char).isPrefixOf (jsTrimLower s).data = true := h
    have hinfo : jsStartsWith (jsTrimLower s) "info" = false :=
      isPrefixOf_false_head (by decide) h'
    have hnav : jsStartsWith (jsTrimLower s) "nav" = false :=
      isPrefixOf_false_head (by decide) h'
    simp [normalizeSearchIntent, hs, h, hinfo, hnav]

/-- A `comm` prefix maps to `transactional`. -/
theorem normalizeSearchIntent_comm {s : String}
    (h : jsStartsWith (jsTrimLower s) "comm" = true) :
    normalizeSearchIntent (some s) = some .transactional := by
  by_cases hs : s = ""
  · subst hs; exact absurd h (by decide)
  · have h' : (('c' :: "omm".data) : List Char).isPrefixOf (jsTrimLower s).data = true := h
    have hinfo : jsStartsWith (jsTrimLower s) "info" = false :=
      isPrefixOf_false_head (by decide) h'
    have hnav : jsStartsWith (jsTrimLower s) "nav" = false :=
      isPrefixOf_false_head (by decide) h'
    have htrans : jsStartsWith (jsTrimLower s) "trans" = false :=
      isPrefixOf_false_head (by decide) h'
    simp [normalizeSearchIntent, hs, h, hinfo, hnav, htrans]

/-- An `investig` prefix maps to `transactional` (it feeds the
`includes("investig")` disjunct). -/
theorem normalizeSearchIntent_investig {s : String}
    (h : jsStartsWith (jsTrimLower s) "investig" = true) :
    normalizeSearchIntent (some s) = some .transactional := by
  by_cases hs : s = ""
  · subst hs; exact absurd h (by decide)
  · have h' : (('i' :: "nvestig".data) : List Char).isPrefixOf (jsTrimLower s).data = true := h
    obtain ⟨t, ht⟩ := List.isPrefixOf_iff_prefix.mp h'
    have hfv : (('f' : Char) == 'v') = false := by decide
    have hinfo : jsStartsWith (jsTrimLower s) "info" = false := by
      show (['i', 'n', 'f', 'o'] : List Char).isPrefixOf (jsTrimLower s).data = false
      rw [← ht]
      simp [List.isPrefixOf, hfv]
    have hnav : jsStartsWith (jsTrimLower s) "nav" = false :=
      isPrefixOf_false_head (by decide) h'
    have htrans : jsStartsWith (jsTrimLower s) "trans" = false :=
      isPrefixOf_false_head (by decide) h'
    have hinc : jsIncludes (jsTrimLower s) "investig" = true :=
      containsSub_of_isPrefixOf h'
    simp [normalizeSearchIntent, hs, hinfo, hnav, htrans, hinc]

/-- A `local` prefix maps to `transactional` (whether or not the string
also contains `investig`). -/
theorem normalizeSearchIntent_local {s : String}
    (h : jsStartsWith (jsTrimLower s) "local" = true) :
    normalizeSearchIntent (some s) = some .transactional := by
  by_cases hs : s = ""
  · subst hs; exact absurd h (by decide)
  · have h' : (('l' :: "ocal".data) : List Char).isPrefixOf (jsTrimLower s).data = true := h
    have hinfo : jsStartsWith (jsTrimLower s) "info" = false :=
      isPrefixOf_false_head (by decide) h'
    have hnav : jsStartsWith (jsTrimLower s) "nav" = false :=
      isPrefixOf_false_head (by decide) h'
    have htrans : jsStartsWith (jsTrimLower s) "trans" = false :=
      isPrefixOf_false_head (by decide) h'
    have hcomm : jsStartsWith (jsTrimLower s) "comm" = false :=
      isPrefixOf_false_head (by decide) h'
    cases hinv : jsIncludes (jsTrimLower s) "investig" with
    | true => simp [normalizeSearchIntent, hs, hinfo, hnav, htrans, hcomm, hinv]
    | false => simp [normalizeSearchIntent, hs, h, hinfo, hnav, htrans, hcomm, hinv]

/-- An `unknown` prefix maps to `unknown` — provided the string does not
also contain `investig`. -/
theorem normalizeSearchIntent_unknown {s : String}
    (h : jsStartsWith (jsTrimLower s) "unknown" = true)
    (hni : jsIncludes (jsTrimLower s) "investig" = false) :
    normalizeSearchIntent (some s) = some .unknown := by
  by_cases hs : s = ""
  · subst hs; exact absurd h (by decide)
  · have h' : (('u' :: "nknown".data) : List Char).isPrefixOf (jsTrimLower s).data = true := h
    have hinfo : jsStartsWith (jsTrimLower s) "info" = false :=
      isPrefixOf_false_head (by decide) h'
    have hnav : jsStartsWith (jsTrimLower s) "nav" = false :=
      isPrefixOf_false_head (by decide) h'
    have htrans : jsStartsWith (jsTrimLower s) "trans" = false :=
      isPrefixOf_false_head (by decide) h'
    have hcomm : jsStartsWith (jsTrimLower s) "comm" = false :=
      isPrefixOf_false_head (by decide) h'
    have hlocal : jsStartsWith (jsTrimLower s) "local" = false :=
      isPrefixOf_false_head (by decide) h'
    simp [normalizeSearchIntent, hs, h, hinfo, hnav, htrans, hcomm, hlocal, hni]

/-- An `unknown` prefix with an `investig` occurrence elsewhere in the
string maps to `transactional`: the `includes("investig")` disjunct is
tested before the `unknown` prefix. -/
theorem normalizeSearchIntent_unknown_investig {s : String}
    (h : jsStartsWith (jsTrimLower s) "unknown" = true)
    (hinv : jsIncludes (jsTrimLower s) "investig" = true) :
    normalizeSearchIntent (some s) = some .transactional := by
  by_cases hs : s = ""
  · subst hs; exact absurd h (by decide)
  · have h' : (('u' :: "nknown".data) : List Char).isPrefixOf (jsTrimLower s).data = true := h
    have hinfo : jsStartsWith (jsTrimLower s) "info" = false :=
      isPrefixOf_false_head (by decide) h'
    have hnav : jsStartsWith (jsTrimLower s) "nav" = false :=
      isPrefixOf_false_head (by decide) h'
    have htrans : jsStartsWith (jsTrimLower s) "trans" = false :=
      isPrefixOf_false_head (by decide) h'
    simp [normalizeSearchIntent, hs, hinfo, hnav, htrans, hinv]

end SEO

namespace SEO

/-- C6 counterexample: `"unknown investigational"` starts with
`unknown` (after trim/lowercase), yet `resolveSearchIntent` returns
`transactional`, not `unknown`: the `includes("investig")` check fires
before the `unknown` prefix check. -/
theorem resolveSearchIntent_unknown_investig_cex :
    jsStartsWith (jsTrimLower "unknown investigational") "unknown" = true ∧
    resolveSearchIntent failEnv none (some "unknown investigational") =
      (⟨.transactional, .high⟩, 0) ∧
    SearchIntent.transactional ≠ SearchIntent.unknown := by
  refine ⟨by decide, by decide, by decide⟩

/-- C6 (amended): every provided intent whose trimmed lowercase form
starts with one of the recognized keyword prefixes resolves without a
model call (zero cheap-model invocations) at `high` confidence to the
mapped intent — `info* → informational`, `nav* → navigational`,
`trans*/comm*/investig*/local* → transactional` — and `unknown*` maps
to `unknown` unless the string also contains `investig`, in which case
the `includes("investig")` disjunct wins and the result is
`transactional`. -/
theorem resolveSearchIntent_keyword_prefixes :
    (∀ (env : IntentEnv) (q : Option String) (s : String),
        jsStartsWith (jsTrimLower s) "info" = true →
        resolveSearchIntent env q (some s) = (⟨.informational, .high⟩, 0)) ∧
    (∀ (env : IntentEnv) (q : Option String) (s : String),
        jsStartsWith (jsTrimLower s) "nav" = true →
        resolveSearchIntent env q (some s) = (⟨.navigational, .high⟩, 0)) ∧
    (∀ (env : IntentEnv) (q : Option String) (s : String),
        jsStartsWith (jsTrimLower s) "trans" = true →
        resolveSearchIntent env q (some s) = (⟨.transactional, .high⟩, 0)) ∧
    (∀ (env : IntentEnv) (q : Option String) (s : String),
        jsStartsWith (jsTrimLower s) "comm" = true →
        resolveSearchIntent env q (some s) = (⟨.transactional, .high⟩, 0)) ∧
    (∀ (env : IntentEnv) (q : Option String) (s : String),
        jsStartsWith (jsTrimLower s) "investig" = true →
        resolveSearchIntent env q (some s) = (⟨.transactional, .high⟩, 0)) ∧
    (∀ (env : IntentEnv) (q : Option String) (s : String),
        jsStartsWith (jsTrimLower s) "local" = true →
        resolveSearchIntent env q (some s) = (⟨.transactional, .high⟩, 0)) ∧
    (∀ (env : IntentEnv) (q : Option String) (s : String),
        jsStartsWith (jsTrimLower s) "unknown" = true →
        jsIncludes (jsTrimLower s) "investig" = false →
        resolveSearchIntent env q (some s) = (⟨.unknown, .high⟩, 0)) ∧
    (∀ (env : IntentEnv) (q : Option String) (s : String),
        jsStartsWith (jsTrimLower s) "unknown" = true →
        jsIncludes (jsTrimLower s) "investig" = true →
        resolveSearchIntent env q (some s) = (⟨.transactional, .high⟩, 0)) := by
  refine ⟨?_, ?_, ?_, ?_, ?_, ?_, ?_, ?_⟩
  · intro env q s h; simp [resolveSearchIntent, normalizeSearchIntent_info h]
  · intro env q s h; simp [resolveSearchIntent, normalizeSearchIntent_nav h]
  · intro env q s h; simp [resolveSearchIntent, normalizeSearchIntent_trans h]
  · intro env q s h; simp [resolveSearchIntent, normalizeSearchIntent_comm h]
  · intro env q s h; simp [resolveSearchIntent, normalizeSearchIntent_investig h]
  · intro env q s h; simp [resolveSearchIntent, normalizeSearchIntent_local h]
  · intro env q s h hni; simp [resolveSearchIntent, normalizeSearchIntent_unknown h hni]
  · intro env q s h hinv
    simp [resolveSearchIntent, normalizeSearchIntent_unknown_investig h hinv]

/-- Witness for C6 at a concrete string per keyword family. -/
theorem resolveSearchIntent_keyword_prefixes_witness :
    resolveSearchIntent failEnv none (some "  INFOrmational ") = (⟨.informational, .high⟩, 0) ∧
    resolveSearchIntent failEnv none (some "Navigational") = (⟨.navigational, .high⟩, 0) ∧
    resolveSearchIntent failEnv none (some "transactional") = (⟨.transactional, .high⟩, 0) ∧
    resolveSearchIntent failEnv none (some "commercial") = (⟨.transactional, .high⟩, 0) ∧
    resolveSearchIntent failEnv none (some "investigational") = (⟨.transactional, .high⟩, 0) ∧
    resolveSearchIntent failEnv none (some "local") = (⟨.transactional, .high⟩, 0) ∧
    resolveSearchIntent failEnv none (some "unknown") = (⟨.unknown, .high⟩, 0) ∧
    resolveSearchIntent failEnv none (some "unknown investigational") =
      (⟨.transactional, .high⟩, 0) :=
  ⟨resolveSearchIntent_keyword_prefixes.1 _ _ _ (by decide),
   resolveSearchIntent_keyword_prefixes.2.1 _ _ _ (by decide),
   resolveSearchIntent_keyword_prefixes.2.2.1 _ _ _ (by decide),
   resolveSearchIntent_keyword_prefixes.2.2.2.1 _ _ _ (by decide),
   resolveSearchIntent_keyword_prefixes.2.2.2.2.1 _ _ _ (by decide),
   resolveSearchIntent_keyword_prefixes.2.2.2.2.2.1 _ _ _ (by decide),
   resolveSearchIntent_keyword_prefixes.2.2.2.2.2.2.1 _ _ _ (by decide) (by decide),
   resolveSearchIntent_keyword_prefixes.2.2.2.2.2.2.2 _ _ _ (by decide) (by decide)⟩

/-- C9 counterexample: the header `"versus"` matches none of the
spec's trigger substrings, so the spec table truncates it to itself,
but the code's extra `includes("versus")` disjunct maps it to
`"Comparison articles"`. -/
theorem normalizeHeaderToPattern_versus_cex :
    normalizeHeaderToPattern "versus" = "Comparison articles" ∧
    specHeaderPattern "versus" = "versus" ∧
    normalizeHeaderToPattern "versus" ≠ specHeaderPattern "versus" := by
  refine ⟨by decide, by decide, by decide⟩

/-- C9 (amended): the STRATEGY header normalization agrees everywhere
with the fixed pattern table amended by one extra comparison trigger —
headers containing `"versus"` (not only `"vs"`) also map to comparison
articles; headers matching no row are truncated to their first 50
characters. -/
theorem normalizeHeaderToPattern_matches_amended_table (h : String) :
    normalizeHeaderToPattern h = specHeaderPatternAmended h := by
  unfold normalizeHeaderToPattern specHeaderPatternAmended specHeaderTableAmended
  simp [List.find?]
  split_ifs <;> simp_all [Bool.or_eq_true]
  all_goals (rename_i hor; cases hor <;> simp_all)

end SEO

namespace SEO

/-!
## Guard-loop lemmas (C2)
-/

/-- A helper turning "never errors" into an explicit `ok` witness. -/
theorem exists_ok {α β : Type} (x : Except α β) (h : ∀ e, x ≠ .error e) :
    ∃ j, x = .ok j := by
  cases x with
  | ok j => exact ⟨j, rfl⟩
  | error e => exact absurd rfl (h e)

/-- When every attempt along a run fails, the guard loop spends its
whole budget and raises the `GuardrailError`, having invoked the model
once per remaining iteration. -/
theorem guardLoop_all_fail {T : Type}
    (runnable : Nat → GuardInput → Except AppError String)
    (parse : String → Except String T) (maxRetries : Nat)
    (hfail : ∀ k inp, ∃ e, oneAttempt runnable parse k inp = .error e) :
    ∀ remaining invocation input,
      guardLoop runnable parse maxRetries remaining invocation input =
        (.error (.guardrailError (guardrailExhaustedMsg maxRetries)),
          invocation + remaining + 1) := by
  intro remaining
  induction remaining with
  | zero =>
    intro invocation input
    obtain ⟨e, he⟩ := hfail invocation input
    simp [guardLoop, he]
  | succ r ih =>
    intro invocation input
    obtain ⟨e, he⟩ := hfail invocation input
    simp [guardLoop, he, ih]
    omega

/-- C2: the schema-repair guard (i) with `maxRetries = 2` and a run
whose first attempt fails and whose second attempt — on the input
amended by the correction notice — parses, returns the parsed value
after exactly two model invocations; (ii) raises the distinguished
`GuardrailError` only after all `maxRetries + 1` attempts (the initial
one plus `maxRetries` retries) have failed; (iii) repairs a string
input by appending the correction notice, which names the caught parse
error verbatim; (iv) that error class is distinct from an ordinary
model/network error. -/
theorem withStructuredOutputGuards_spec :
    (∀ (T : Type) (runnable : Nat → GuardInput → Except AppError String)
        (parse : String → Except String T) (input : GuardInput) (e0 : String) (v : T),
        oneAttempt runnable parse 0 input = .error e0 →
        oneAttempt runnable parse 1 (repairInput input e0) = .ok v →
        withStructuredOutputGuards runnable parse 2 input = (.ok v, 2)) ∧
    (∀ (T : Type) (runnable : Nat → GuardInput → Except AppError String)
        (parse : String → Except String T) (maxRetries : Nat) (input : GuardInput),
        (∀ k inp, ∃ e, oneAttempt runnable parse k inp = .error e) →
        withStructuredOutputGuards runnable parse maxRetries input =
          (.error (.guardrailError (guardrailExhaustedMsg maxRetries)), maxRetries + 1)) ∧
    (∀ s e, repairInput (.str s) e = .str (s ++ repairPrompt e) ∧
      ∃ a b, repairPrompt e = a ++ e ++ b) ∧
    (∀ m g, AppError.guardrailError g ≠ AppError.modelError m) := by
  refine ⟨?_, ?_, ?_, ?_⟩
  · intro T runnable parse input e0 v h0 h1
    simp [withStructuredOutputGuards, guardLoop, h0, h1]
  · intro T runnable parse maxRetries input hfail
    have h := guardLoop_all_fail runnable parse maxRetries hfail maxRetries 0 input
    rw [withStructuredOutputGuards, h]
    refine congrArg _ ?_
    omega
  · intro s e
    exact ⟨rfl, repairNoticeHead, repairNoticeTail, rfl⟩
  · intro m g
    simp

/-- Witness for C2 on the flaky stub of the repository's guardrail
test script (invalid text on attempt one, valid on attempt two). -/
theorem withStructuredOutputGuards_spec_witness :
    oneAttempt flakyRunnable parse42 0 (.str "Generate user") = .error "Invalid JSON" ∧
    oneAttempt flakyRunnable parse42 1
        (repairInput (.str "Generate user") "Invalid JSON") = .ok 42 ∧
    withStructuredOutputGuards flakyRunnable parse42 2 (.str "Generate user") =
      (.ok 42, 2) :=
  ⟨rfl, rfl,
   withStructuredOutputGuards_spec.1 Nat flakyRunnable parse42
     (.str "Generate user") "Invalid JSON" 42 rfl rfl⟩

/-- C1 counterexample: a router model rejection (or a parse failure of
its structured output) propagates out of `routerNode`, so the run
aborts — it does not complete through the STANDARD path. -/
theorem routerFailure_aborts_cex :
    runRouterPhase (.error (.modelError "ECONNRESET"))
        (fun _ => .error "router parse failure") =
      .aborted (.modelError "ECONNRESET") ∧
    runRouterPhase (.ok "not a classification")
        (fun _ => .error "router parse failure") =
      .aborted (.parseError "router parse failure") ∧
    RunOutcome.aborted (.modelError "ECONNRESET") ≠
      RunOutcome.completed .standard_agent :=
  ⟨rfl, rfl, by simp⟩

/-- C1 (amended): STANDARD is the routing default only for an in-band
missing or STANDARD-classified intent — `routeByIntent` sends a `null`
intent and a parsed STANDARD decision to the standard agent, and a
successfully parsed run completes — but an exception from the router's
model call or output parsing aborts the whole run with that error
instead of falling back to STANDARD. -/
theorem router_default_in_band_only :
    (∀ (e : AppError) (parse : String → Except String RouterDecision),
        runRouterPhase (.error e) parse = .aborted e) ∧
    (∀ (content msg : String),
        runRouterPhase (.ok content) (fun _ => .error msg) =
          .aborted (.parseError msg)) ∧
    routeByIntent none = .standard_agent ∧
    routeByIntent (some .STANDARD) = .standard_agent ∧
    (∀ (content expl : String),
        runRouterPhase (.ok content) (fun _ => .ok ⟨.STANDARD, expl⟩) =
          .completed .standard_agent) :=
  ⟨fun _ _ => rfl, fun _ _ => rfl, rfl, rfl, fun _ _ => rfl⟩

/-- C4: when the last transcript message is an assistant message with
tool calls, the executor produces exactly one tool message per call, in
order; the `i`-th tool message carries the `i`-th call's id
(`toolCall.id || ""`); and the input of the next model invocation
(`standardResponseNode`) is the prior transcript with all of these tool
messages appended. -/
theorem toolExecutor_answers_every_call (env : ToolEnv) (stateQuery : String)
    (messages : List ChatMsg) (content : String) (tcs : List ToolCall)
    (hlast : messages.getLast? = some (.ai content tcs)) :
    (toolExecutorNode env stateQuery messages).length = tcs.length ∧
    (∀ (i : Nat) (tc : ToolCall), tcs[i]? = some tc →
      ∃ result : Json,
        (toolExecutorNode env stateQuery messages)[i]? =
          some (ChatMsg.tool result (tc.id.getD ""))) ∧
    standardResponseModelInput env stateQuery messages =
      messages ++ toolExecutorNode env stateQuery messages := by
  have hnode : toolExecutorNode env stateQuery messages =
      tcs.map (execToolCall env stateQuery) := by
    simp [toolExecutorNode, hlast]
  refine ⟨by simp [hnode], ?_, rfl⟩
  intro i tc htc
  rw [hnode, List.getElem?_map, htc]
  cases hx : invokeRegisteredTool env stateQuery tc with
  | ok j => exact ⟨j, by simp [execToolCall, hx]⟩
  | error e =>
    exact ⟨.str ("Error executing tool: " ++ e.message), by simp [execToolCall, hx]⟩

/-- Witness for C4 on a two-call assistant message (one registered
tool, one unknown name) over the healthy-but-empty store. -/
theorem toolExecutor_answers_every_call_witness :
    sampleMessages.getLast? = some (.ai "" sampleToolCalls) ∧
    ((toolExecutorNode emptyStoreEnv "q" sampleMessages).length = sampleToolCalls.length ∧
     (∀ (i : Nat) (tc : ToolCall), sampleToolCalls[i]? = some tc →
       ∃ result : Json,
         (toolExecutorNode emptyStoreEnv "q" sampleMessages)[i]? =
           some (ChatMsg.tool result (tc.id.getD ""))) ∧
     standardResponseModelInput emptyStoreEnv "q" sampleMessages =
       sampleMessages ++ toolExecutorNode emptyStoreEnv "q" sampleMessages) :=
  ⟨rfl, toolExecutor_answers_every_call emptyStoreEnv "q" sampleMessages "" sampleToolCalls rfl⟩

end SEO

namespace SEO

/-- C5 counterexample: with the vector store down, `search_by_query`
propagates the rejection to its caller instead of capturing it as a
structured `{error}` payload. -/
theorem searchByQuery_vector_store_throw_cex :
    searchByQuery storeDownEnv "pizza ovens" 10 = .error (.storeError "connection reset") ∧
    (Except.error (.storeError "connection reset") : Except AppError Json) ≠
      .ok (errorPayload "connection reset") :=
  ⟨rfl, by simp⟩

/-- C5 (amended): `get_top_performers`, `get_serp_features`,
`get_cluster_data` and `analyze_content_types` return supabase query
errors in-band as structured `{error}` payloads, and
`get_top_performers` / `get_cluster_data` never throw at all
(`get_top_performers` converts every thrown error into an `{error}`
payload via its own `catch`).  `search_by_query` never emits an
`{error}` payload: a supabase error in its cluster-hint branch is
silently swallowed and the tool falls back to vector search.
Vector-store rejections propagate out of `search_by_query` and
`get_serp_features`, and `analyze_content_types` propagates
vector-store and main-model rejections while failing closed with an
`{error}` payload on an unparseable analysis.  Successful paths return
the JSON-serializable payloads below. -/
theorem fiveTools_error_capture :
    (∀ (env : ToolEnv) (cluster query : Option String) (limit : Nat),
        ∃ j, getTopPerformers env cluster query limit = .ok j) ∧
    (∀ (env : ToolEnv) (cluster query : Option String) (limit : Nat) (e : AppError),
        getTopPerformersBody env cluster query limit = .error e →
        getTopPerformers env cluster query limit = .ok (errorPayload e.message)) ∧
    (∀ (env : ToolEnv) (cluster : String) (limit : Nat),
        ∃ j, getClusterData env cluster limit = .ok j) ∧
    (∀ (env : ToolEnv) (cluster : String) (limit : Nat) (msg : String),
        (env.supaQuery (clusterDataSpec
            (if normalizeClusterLabel (some cluster) = ""
              then cluster else normalizeClusterLabel (some cluster)) limit)).error =
          some msg →
        getClusterData env cluster limit = .ok (errorPayload msg)) ∧
    (∀ (env : ToolEnv) (cluster query feature : Option String) (limit : Nat)
        (rc msg : String),
        toolResolveCluster env cluster query = .ok rc →
        (env.supaQuery (serpFeaturesSpec rc query limit)).error = some msg →
        getSerpFeatures env cluster query feature limit = .ok (errorPayload msg)) ∧
    (∀ (env : ToolEnv) (cluster query : Option String) (thr : Nat)
        (rows : List SupaRow) (content rc : String),
        analyzeResolveCluster env cluster query = .ok rc →
        env.supaQuery (analyzeSpec rc query thr) = { data := some rows, error := none } →
        rows.length ≠ 0 →
        env.invokeMain ⟨false, .unknown, rows⟩ = .ok content →
        env.parseAnalysis content = none →
        analyzeContentTypes env cluster query none thr =
          .ok (.obj [("error", .str "Failed to parse content analysis"),
                     ("raw_response", .str (jsSliceTake content 200))])) ∧
    (∀ (env : ToolEnv) (q : String) (limit : Nat) (docs : List SupaRow),
        extractClusterHint env q [] = "" →
        env.similaritySearch q limit = .ok docs →
        searchByQuery env q limit = .ok (.arr (docs.map docJson))) ∧
    (∀ (env : ToolEnv) (cluster query intent : Option String) (thr : Nat)
        (rc msg : String),
        analyzeResolveCluster env cluster query = .ok rc →
        (env.supaQuery (analyzeSpec rc query thr)).error = some msg →
        analyzeContentTypes env cluster query intent thr = .ok (errorPayload msg)) ∧
    (∀ (env : ToolEnv) (q : String) (limit : Nat) (docs : List SupaRow)
        (hint msg : String),
        extractClusterHint env q [] = hint →
        hint ≠ "" →
        (env.supaQuery (searchByClusterSpec hint limit)).error = some msg →
        env.similaritySearch q limit = .ok docs →
        searchByQuery env q limit = .ok (.arr (docs.map docJson))) := by
  refine ⟨?_, ?_, ?_, ?_, ?_, ?_, ?_, ?_, ?_⟩
  · intro env cluster query limit
    apply exists_ok
    intro e h
    simp only [getTopPerformers] at h
    split at h <;> simp_all
  · intro env cluster query limit e hb
    simp [getTopPerformers, hb]
  · intro env cluster limit
    apply exists_ok
    intro e h
    simp only [getClusterData] at h
    split at h <;> simp_all
  · intro env cluster limit msg hq
    simp [getClusterData, hq]
  · intro env cluster query feature limit rc msg hrc hq
    simp [getSerpFeatures, hrc, hq]
  · intro env cluster query thr rows content rc hrc hq hrows hmain hparse
    simp [analyzeContentTypes, hrc, hq, hrows, hmain, hparse]
  · intro env q limit docs hhint hss
    simp [searchByQuery, hhint, hss]
  · intro env cluster query intent thr rc msg hrc hq
    simp [analyzeContentTypes, hrc, hq]
  · intro env q limit docs hint msg hhint hne hq hss
    simp [searchByQuery, hhint, hne, hq, hss]

/-- Witness for C5 at concrete environments: a caught vector-store
failure in `get_top_performers`, in-band supabase error payloads from
`get_cluster_data` / `get_serp_features` / `analyze_content_types`, an
unparseable analysis in `analyze_content_types`, a successful empty
`search_by_query`, and `search_by_query`'s silent fallback to vector
search when its cluster-hint supabase query fails. -/
theorem fiveTools_error_capture_witness :
    getTopPerformersBody storeDownEnv none (some "top pizza") 10 =
        .error (.storeError "connection reset") ∧
    getTopPerformers storeDownEnv none (some "top pizza") 10 =
      .ok (errorPayload "connection reset") ∧
    getClusterData dbErrorEnv "pizza" 50 = .ok (errorPayload "permission denied") ∧
    getSerpFeatures dbErrorEnv (some "pizza") none none 20 =
      .ok (errorPayload "permission denied") ∧
    analyzeContentTypes parseFailEnv (some "pizza") none none 10 =
      .ok (.obj [("error", .str "Failed to parse content analysis"),
                 ("raw_response",
                   .str (jsSliceTake "I could not produce JSON, sorry" 200))]) ∧
    searchByQuery emptyStoreEnv "anything" 10 = .ok (.arr []) ∧
    analyzeContentTypes dbErrorEnv (some "pizza") none none 10 =
      .ok (errorPayload "permission denied") ∧
    searchByQuery hintDbErrorEnv "pizza ovens" 10 = .ok (.arr [docJson sampleRow]) :=
  ⟨rfl,
   fiveTools_error_capture.2.1 storeDownEnv none (some "top pizza") 10 _ rfl,
   fiveTools_error_capture.2.2.2.1 dbErrorEnv "pizza" 50 "permission denied" rfl,
   fiveTools_error_capture.2.2.2.2.1 dbErrorEnv (some "pizza") none none 20 "pizza"
     "permission denied" rfl rfl,
   fiveTools_error_capture.2.2.2.2.2.1 parseFailEnv (some "pizza") none 10
     [sampleRow] "I could not produce JSON, sorry" "pizza" rfl rfl (by decide) rfl rfl,
   fiveTools_error_capture.2.2.2.2.2.2.1 emptyStoreEnv "anything" 10 [] rfl rfl,
   fiveTools_error_capture.2.2.2.2.2.2.2.1 dbErrorEnv (some "pizza") none none 10
     "pizza" "permission denied" rfl rfl,
   fiveTools_error_capture.2.2.2.2.2.2.2.2 hintDbErrorEnv "pizza ovens" 10
     [sampleRow] "pizza" "permission denied" rfl (by decide) rfl rfl⟩

end SEO
